import Mathlib

/-!
# Eventline - verification of the event ingestion and scheduling slice

A shallow embedding, in Lean 4, of the parts of the eventline repository that
the specification's claims are about:

* the GitHub connector webhook path (`pkg/connectors/github/webhooks.go`):
  secret derivation, signature verification, raw and typed event creation,
  and the subscription matcher `LoadSubscriptionsByParams`;
* the job scheduler tick (`pkg/service/job_scheduler.go`);
* the SSH runner (`pkg/runners/ssh/runner.go`).

Pure Go functions become Lean functions; the database becomes an explicit
state threaded through the functions, with each `WithTx` transaction recorded
in a trace; machine integers are `Nat` with explicit reduction modulo `2^32`;
fallible operations return their error outcome explicitly.  External
collaborators (the Go standard library's SHA-256 and HMAC, the go-github
signature check, the ssh/sftp client libraries, the SQL engine) are modelled
by executable Lean definitions of their documented behaviour; repository code
that the claims depend on but whose source is not among the analysed files is
modelled from the specification and marked `Modelled from the spec:` in its
doc comment.
-/

set_option maxRecDepth 10000

namespace Eventline

/-! ## Bytes and 32-bit words

Machine integers are modelled as `Nat` with explicit reduction modulo `2^32`
(for SHA-256 words) or `2^8` (for bytes). -/

/-- Reduce a natural number to a 32-bit word. -/
def w32 (x : Nat) : Nat := x % 4294967296

/-- Right rotation of a 32-bit word by `n` bits. -/
def rotr32 (n x : Nat) : Nat := w32 ((x >>> n) ||| (x <<< (32 - n)))

/-- The UTF-8 encoding of one character, as naturals below 256. -/
def utf8Bytes (c : Char) : List Nat :=
  let n := c.toNat
  if n < 128 then [n]
  else if n < 2048 then [192 ||| (n >>> 6), 128 ||| (n &&& 63)]
  else if n < 65536 then
    [224 ||| (n >>> 12), 128 ||| ((n >>> 6) &&& 63), 128 ||| (n &&& 63)]
  else
    [240 ||| (n >>> 18), 128 ||| ((n >>> 12) &&& 63),
     128 ||| ((n >>> 6) &&& 63), 128 ||| (n &&& 63)]

/-- The UTF-8 bytes of a string (Go's `[]byte(s)`), as naturals below 256. -/
def strBytes (s : String) : List Nat :=
  s.data.foldr (fun c acc => utf8Bytes c ++ acc) []

/-! ## SHA-256 (FIPS 180-4) -/

/-- The 64 SHA-256 round constants (the fractional parts of the cube roots of
the first 64 primes, as 32-bit words, here written in decimal). -/
def sha256K : List Nat :=
  [1116352408, 1899447441, 3049323471, 3921009573, 961987163,
   1508970993, 2453635748, 2870763221, 3624381080, 310598401,
   607225278, 1426881987, 1925078388, 2162078206, 2614888103,
   3248222580, 3835390401, 4022224774, 264347078, 604807628,
   770255983, 1249150122, 1555081692, 1996064986, 2554220882,
   2821834349, 2952996808, 3210313671, 3336571891, 3584528711,
   113926993, 338241895, 666307205, 773529912, 1294757372,
   1396182291, 1695183700, 1986661051, 2177026350, 2456956037,
   2730485921, 2820302411, 3259730800, 3345764771, 3516065817,
   3600352804, 4094571909, 275423344, 430227734, 506948616,
   659060556, 883997877, 958139571, 1322822218, 1537002063,
   1747873779, 1955562222, 2024104815, 2227730452, 2361852424,
   2428436474, 2756734187, 3204031479, 3329325298]

/-- SHA-256 logical function Ch. -/
def sha256Ch (x y z : Nat) : Nat := (x &&& y) ^^^ ((x ^^^ 4294967295) &&& z)

/-- SHA-256 logical function Maj. -/
def sha256Maj (x y z : Nat) : Nat := (x &&& y) ^^^ (x &&& z) ^^^ (y &&& z)

/-- SHA-256 big sigma 0. -/
def sha256S0 (x : Nat) : Nat := rotr32 2 x ^^^ rotr32 13 x ^^^ rotr32 22 x

/-- SHA-256 big sigma 1. -/
def sha256S1 (x : Nat) : Nat := rotr32 6 x ^^^ rotr32 11 x ^^^ rotr32 25 x

/-- SHA-256 small sigma 0. -/
def sha256s0 (x : Nat) : Nat := rotr32 7 x ^^^ rotr32 18 x ^^^ (x >>> 3)

/-- SHA-256 small sigma 1. -/
def sha256s1 (x : Nat) : Nat := rotr32 17 x ^^^ rotr32 19 x ^^^ (x >>> 10)

/-- Big-endian 8-byte encoding of a natural number. -/
def be64 (n : Nat) : List Nat :=
  [(n >>> 56) % 256, (n >>> 48) % 256, (n >>> 40) % 256, (n >>> 32) % 256,
   (n >>> 24) % 256, (n >>> 16) % 256, (n >>> 8) % 256, n % 256]

/-- Big-endian 4-byte encoding of a 32-bit word. -/
def be32 (n : Nat) : List Nat :=
  [(n >>> 24) % 256, (n >>> 16) % 256, (n >>> 8) % 256, n % 256]

/-- SHA-256 padding: append `0x80`, zero bytes, and the 64-bit big-endian bit
length, so that the total length is a multiple of 64 bytes. -/
def sha256Pad (msg : List Nat) : List Nat :=
  let zeros := (64 - (msg.length + 9) % 64) % 64
  msg ++ 0x80 :: List.replicate zeros 0 ++ be64 (8 * msg.length)

/-- Group bytes into big-endian 32-bit words. -/
def bytesToWords : List Nat → List Nat
  | a :: b :: c :: d :: rest =>
      (a * 16777216 + b * 65536 + c * 256 + d) :: bytesToWords rest
  | _ => []

/-- Extend the 16-word block to the 64-word message schedule (`n` extension
steps remaining). -/
def sha256Extend : Nat → List Nat → List Nat
  | 0, ws => ws
  | n + 1, ws =>
      let t := ws.length
      let x := w32 (sha256s1 (ws.getD (t - 2) 0) + ws.getD (t - 7) 0 +
                    sha256s0 (ws.getD (t - 15) 0) + ws.getD (t - 16) 0)
      sha256Extend n (ws ++ [x])

/-- The eight 32-bit working variables of SHA-256. -/
structure Hash8 where
  a : Nat
  b : Nat
  c : Nat
  d : Nat
  e : Nat
  f : Nat
  g : Nat
  h : Nat
deriving Repr, DecidableEq

/-- The SHA-256 initial hash value (the fractional parts of the square roots
of the first 8 primes, as 32-bit words, here written in decimal). -/
def sha256Init : Hash8 :=
  ⟨1779033703, 3144134277, 1013904242, 2773480762,
   1359893119, 2600822924, 528734635, 1541459225⟩

/-- One SHA-256 compression of a 64-byte block into the running hash. -/
def sha256Compress (hv : Hash8) (block : List Nat) : Hash8 :=
  let ws := sha256Extend 48 (bytesToWords block)
  let st := (List.zip sha256K ws).foldl
    (fun st kw =>
      let t1 := w32 (st.h + sha256S1 st.e + sha256Ch st.e st.f st.g + kw.1 + kw.2)
      let t2 := w32 (sha256S0 st.a + sha256Maj st.a st.b st.c)
      ⟨w32 (t1 + t2), st.a, st.b, st.c, w32 (st.d + t1), st.e, st.f, st.g⟩)
    hv
  ⟨w32 (hv.a + st.a), w32 (hv.b + st.b), w32 (hv.c + st.c), w32 (hv.d + st.d),
   w32 (hv.e + st.e), w32 (hv.f + st.f), w32 (hv.g + st.g), w32 (hv.h + st.h)⟩

/-- Split a byte list into 64-byte chunks (fuel-driven). -/
def chunks64Go : Nat → List Nat → List (List Nat)
  | 0, _ => []
  | _, [] => []
  | n + 1, l => l.take 64 :: chunks64Go n (l.drop 64)

/-- Split a byte list into 64-byte chunks. -/
def chunks64 (l : List Nat) : List (List Nat) := chunks64Go l.length l

/-- SHA-256 of a byte list, as a 32-byte digest. -/
def sha256Bytes (msg : List Nat) : List Nat :=
  let hv := (chunks64 (sha256Pad msg)).foldl sha256Compress sha256Init
  be32 hv.a ++ be32 hv.b ++ be32 hv.c ++ be32 hv.d ++
  be32 hv.e ++ be32 hv.f ++ be32 hv.g ++ be32 hv.h

/-! ## HMAC-SHA256 (RFC 2104) -/

/-- HMAC-SHA256 of a message under a key (block size 64 bytes). -/
def hmacSha256 (key msg : List Nat) : List Nat :=
  let k0 := if 64 < key.length then sha256Bytes key else key
  let kp := k0 ++ List.replicate (64 - k0.length) 0
  let ipad := kp.map (fun b => b ^^^ 0x36)
  let opad := kp.map (fun b => b ^^^ 0x5c)
  sha256Bytes (opad ++ sha256Bytes (ipad ++ msg))

/-! ## Lowercase hex encoding (Go `encoding/hex`) -/

/-- A lowercase hexadecimal digit. -/
def hexDigit (n : Nat) : Char :=
  if n < 10 then Char.ofNat (48 + n) else Char.ofNat (87 + n)

/-- Lowercase hex encoding of a byte list, as in Go `hex.EncodeToString`. -/
def hexEncode (bs : List Nat) : String :=
  String.mk (bs.foldr (fun b acc => hexDigit (b / 16) :: hexDigit (b % 16) :: acc) [])

/-! ## The GitHub connector webhook path (`pkg/connectors/github/webhooks.go`) -/

namespace github

/-- The GitHub connector parameters: the organization and (possibly empty)
repository a subscription or webhook target refers to. -/
structure Parameters where
  organization : String
  repository : String
deriving Repr, DecidableEq

/-- The GitHub connector state used by the webhook path: the connector
definition name (`c.Def.Name`, which is `"github"`) and the webhook key
(`c.webhookKey`). -/
structure Connector where
  name : String
  webhookKey : List Nat
deriving Repr, DecidableEq

/-- A row of the `subscriptions` table, with the columns selected by
`LoadSubscriptionsByParams`: `id, project_id, job_id, identity_id, connector,
event, parameters, creation_time, status, update_delay, last_update,
next_update`. -/
structure SubscriptionRow where
  id : Nat
  projectId : Nat
  jobId : Nat
  identityId : Option Nat
  connector : String
  event : String
  parameters : String
  creationTime : Nat
  status : String
  updateDelay : Option Nat
  lastUpdate : Option Nat
  nextUpdate : Option Nat
deriving Repr, DecidableEq

/-- A row of the `c_github_subscriptions` sub-table, joined on `id`. -/
structure GithubSubscriptionRow where
  id : Nat
  organization : String
  repository : String
deriving Repr, DecidableEq

/-- The payload of an event row, as created by the webhook path. -/
inductive EventData where
  | raw (deliveryId : String) (eventType : String) (payload : String)
  | repositoryCreation (organization : String) (repository : String)
  | repositoryDeletion (organization : String) (repository : String)
deriving Repr, DecidableEq

/-- A bound event row, as inserted by `CreateEvents`: the subscription it is
bound to, the connector and event name, the event time, and the data. -/
structure EventRow where
  subscriptionId : Nat
  projectId : Nat
  jobId : Nat
  connector : String
  name : String
  eventTime : Nat
  data : EventData
deriving Repr, DecidableEq

/-- The relational state the webhook path reads and writes: the two
subscription tables and the events table. -/
structure Db where
  subscriptions : List SubscriptionRow
  githubSubscriptions : List GithubSubscriptionRow
  events : List EventRow
deriving Repr, DecidableEq

/-- Modelled from the spec: `Subscription.NewEvent` lives in `pkg/eventline`,
which is not among the analysed sources.  Per spec section 4.F, it creates a
bound event with `subscription_id` set, "`event_time` from the payload when
available else `created_at`", and `data` the typed event. -/
def SubscriptionRow.NewEvent (sub : SubscriptionRow) (connector : String)
    (ename : String) (eventTime : Option Nat) (d : EventData) (now : Nat) :
    EventRow :=
  { subscriptionId := sub.id, projectId := sub.projectId, jobId := sub.jobId,
    connector := connector, name := ename, eventTime := eventTime.getD now,
    data := d }

/-- `LoadSubscriptionsByParams` (webhooks.go lines 195-224).  The SQL query
selects the rows of `subscriptions` that join a `c_github_subscriptions` row
with the same `id` and satisfy
`es.connector = 'github' AND es.event = $1 AND gs.organization = $2`,
together with `gs.repository = $3` when `params.Repository` is non-empty;
when `params.Repository` is empty the repository condition is the literal
`TRUE`. -/
def LoadSubscriptionsByParams (db : Db) (ename : String) (params : Parameters) :
    List SubscriptionRow :=
  db.subscriptions.filter fun es =>
    db.githubSubscriptions.any fun gs =>
      gs.id == es.id && es.connector == "github" && es.event == ename &&
      gs.organization == params.organization &&
      (params.repository == "" || gs.repository == params.repository)

/-- The outcome of one `WithTx` transaction: either the closure succeeded and
the rows it inserted were committed, or it failed and the whole transaction
was rolled back. -/
inductive TxResult where
  | committed (inserted : List EventRow)
  | rolledBack
deriving Repr, DecidableEq

/-- The rows a transaction contributed to the persisted state. -/
def TxResult.rows : TxResult → List EventRow
  | .committed inserted => inserted
  | .rolledBack => []

/-- `CreateEvents` (webhooks.go lines 174-193): inside a single `WithTx`
transaction, load the subscriptions matching `(ename, params)` and insert one
bound event per subscription.  `insertFails` is the environment's oracle for
`event.Insert` errors (a database failure on a given row); the first failing
insert aborts the closure, and `WithTx` rolls the transaction back, so the
net effect of one call is all-or-nothing. -/
def CreateEvents (connectorName : String) (insertFails : EventRow → Bool)
    (now : Nat) (ename : String) (eventTime : Option Nat) (d : EventData)
    (params : Parameters) (db : Db) : Except String Db × TxResult :=
  let subs := LoadSubscriptionsByParams db ename params
  let rows := subs.map fun sub => sub.NewEvent connectorName ename eventTime d now
  if rows.any insertFails then
    (Except.error "cannot insert event", TxResult.rolledBack)
  else
    (Except.ok { db with events := db.events ++ rows }, TxResult.committed rows)

/-- `WebhookSecret` (webhooks.go lines 38-47): the lowercase-hex HMAC-SHA256
of the webhook target under the connector's webhook key.  `target` stands for
`params.Target()`, whose definition is outside the analysed sources; the
derivation reads no database state and is a pure function of the key and the
target. -/
def WebhookSecret (c : Connector) (target : String) : String :=
  let key := c.webhookKey
  let value := strBytes target
  hexEncode (hmacSha256 key value)

/-- The GitHub signature header value for a body signed with a secret:
`sha256=` followed by the lowercase-hex HMAC-SHA256 of the body under the
secret. -/
def githubSignature (secret : String) (body : List Nat) : String :=
  "sha256=" ++ hexEncode (hmacSha256 (strBytes secret) body)

/-- The external go-github `github.ValidatePayload` signature check, per spec
section 4.E.3: "the HTTP handler reads the provider-specified signature
header and recomputes HMAC over the raw body". -/
def validatePayload (signatureHeader : String) (body : List Nat)
    (secret : String) : Bool :=
  signatureHeader == githubSignature secret body

/-- The organization of a `github.RepositoryEvent` payload (`e.Org`); its
login pointer may be absent. -/
structure GithubOrganization where
  login : Option String
deriving Repr, DecidableEq

/-- The repository of a `github.RepositoryEvent` payload (`e.Repo`); its name
and timestamps may be absent. -/
structure GithubRepository where
  name : Option String
  createdAt : Option Nat
  updatedAt : Option Nat
deriving Repr, DecidableEq

/-- The result of the external `github.ParseWebHook` on the payload: a
repository event with its `action`, `org` and `repo` fields (each possibly
absent), a push event, or some other event type. -/
inductive ParsedEvent where
  | repository (action : Option String) (org : Option GithubOrganization)
      (repo : Option GithubRepository)
  | push
  | other (eventType : String)
deriving Repr, DecidableEq

/-- An incoming webhook HTTP request.  The results of the two external
decoders applied to `body` - `json.Unmarshal` into an untyped value and
`github.ParseWebHook` - are carried as fields, `none` meaning the decoder
fails on this body. -/
structure WebhookRequest where
  body : List Nat
  signatureHeader : String
  deliveryId : String
  eventType : String
  jsonBody : Option String
  parsedEvent : Option ParsedEvent
deriving Repr, DecidableEq

/-- The error outcomes of `ProcessWebhookRequest`. -/
inductive ProcessError where
  | invalidSignature
  | cannotDecodePayload
  | cannotCreateEvent
  | cannotParseWebhookEvent
  | invalidWebhookEvent (msg : String)
deriving Repr, DecidableEq

/-- `processWebhookEventRepositoryCreated` (webhooks.go lines 98-131): check
the payload shape (organization, organization login, repository, repository
name), then create one `repository_creation` event per matching subscription,
with the event time taken from the repository creation time when present.
Returns the error outcome, the resulting persisted state, and the
transactions run. -/
def processWebhookEventRepositoryCreated (c : Connector)
    (insertFails : EventRow → Bool) (now : Nat)
    (org : Option GithubOrganization) (repo : Option GithubRepository)
    (params : Parameters) (db : Db) :
    Option ProcessError × Db × List TxResult :=
  match org with
  | none => (some (ProcessError.invalidWebhookEvent "missing organization"), db, [])
  | some o =>
    match o.login with
    | none =>
        (some (ProcessError.invalidWebhookEvent "missing organization login"), db, [])
    | some login =>
      match repo with
      | none => (some (ProcessError.invalidWebhookEvent "missing repository"), db, [])
      | some r =>
        match r.name with
        | none =>
            (some (ProcessError.invalidWebhookEvent "missing repository name"), db, [])
        | some rname =>
          let eventTime := r.createdAt
          match CreateEvents c.name insertFails now "repository_creation"
              eventTime (EventData.repositoryCreation login rname) params db with
          | (Except.error _, tx) => (some ProcessError.cannotCreateEvent, db, [tx])
          | (Except.ok db2, tx) => (none, db2, [tx])

/-- `processWebhookEventRepositoryDeleted` (webhooks.go lines 133-166): same
shape checks, then one `repository_deletion` event per matching subscription,
with the event time taken from the repository update time when present. -/
def processWebhookEventRepositoryDeleted (c : Connector)
    (insertFails : EventRow → Bool) (now : Nat)
    (org : Option GithubOrganization) (repo : Option GithubRepository)
    (params : Parameters) (db : Db) :
    Option ProcessError × Db × List TxResult :=
  match org with
  | none => (some (ProcessError.invalidWebhookEvent "missing organization"), db, [])
  | some o =>
    match o.login with
    | none =>
        (some (ProcessError.invalidWebhookEvent "missing organization login"), db, [])
    | some login =>
      match repo with
      | none => (some (ProcessError.invalidWebhookEvent "missing repository"), db, [])
      | some r =>
        match r.name with
        | none =>
            (some (ProcessError.invalidWebhookEvent "missing repository name"), db, [])
        | some rname =>
          let eventTime := r.updatedAt
          match CreateEvents c.name insertFails now "repository_deletion"
              eventTime (EventData.repositoryDeletion login rname) params db with
          | (Except.error _, tx) => (some ProcessError.cannotCreateEvent, db, [tx])
          | (Except.ok db2, tx) => (none, db2, [tx])

/-- `ProcessWebhookRequest` (webhooks.go lines 49-96): verify the signature
with the secret derived for the target, decode the payload, create the raw
events, then dispatch on the parsed payload to create the typed events
(`processWebhookEventPush` is a TODO in the source and creates nothing).
Returns the error outcome, the resulting persisted state, and the list of
transactions run, in order - each `CreateEvents` call is its own `WithTx`
transaction. -/
def ProcessWebhookRequest (c : Connector) (insertFails : EventRow → Bool)
    (now : Nat) (req : WebhookRequest) (target : String) (params : Parameters)
    (db : Db) : Option ProcessError × Db × List TxResult :=
  let secret := WebhookSecret c target
  if validatePayload req.signatureHeader req.body secret then
    match req.jsonBody with
    | none => (some ProcessError.cannotDecodePayload, db, [])
    | some rawMsg =>
      let rawEventData := EventData.raw req.deliveryId req.eventType rawMsg
      match CreateEvents c.name insertFails now "raw" none rawEventData params db with
      | (Except.error _, tx) => (some ProcessError.cannotCreateEvent, db, [tx])
      | (Except.ok db1, tx1) =>
        match req.parsedEvent with
        | none => (some ProcessError.cannotParseWebhookEvent, db1, [tx1])
        | some (ParsedEvent.repository action org repo) =>
          match action with
          | none => (some (ProcessError.invalidWebhookEvent "missing action"), db1, [tx1])
          | some a =>
            if a == "created" then
              let r := processWebhookEventRepositoryCreated c insertFails now
                org repo params db1
              (r.1, r.2.1, tx1 :: r.2.2)
            else if a == "deleted" then
              let r := processWebhookEventRepositoryDeleted c insertFails now
                org repo params db1
              (r.1, r.2.1, tx1 :: r.2.2)
            else (none, db1, [tx1])
        | some ParsedEvent.push => (none, db1, [tx1])
        | some (ParsedEvent.other _) => (none, db1, [tx1])
  else (some ProcessError.invalidSignature, db, [])

/-- The raw event rows a webhook request gives rise to: one per subscription
matching `("raw", params)`, carrying the delivery id, the event type and the
decoded payload. -/
def rawEventRows (c : Connector) (now : Nat) (req : WebhookRequest)
    (params : Parameters) (db : Db) (rawMsg : String) : List EventRow :=
  (LoadSubscriptionsByParams db "raw" params).map fun sub =>
    sub.NewEvent c.name "raw" none
      (EventData.raw req.deliveryId req.eventType rawMsg) now

/-- The insert oracle under which no insert fails. -/
def noInsertFailures : EventRow → Bool := fun _ => false

end github

/-! ## The job scheduler tick (`pkg/service/job_scheduler.go`) -/

namespace service

/-- A `job_executions` row as the scheduler sees it. -/
structure JobExecution where
  id : Nat
  projectId : Nat
  jobId : Nat
  status : String
  scheduledAt : Option Nat
  startedAt : Option Nat
deriving Repr, DecidableEq

/-- The scheduler-visible store state: the job executions and the set of
disabled job ids. -/
structure SchedDb where
  jobExecutions : List JobExecution
  disabledJobs : List Nat
deriving Repr, DecidableEq

/-- Modelled from the spec: the advisory lock class used by the scheduler
(`PgAdvisoryLockId1`; spec section 4.G: `class=SCHEDULING_CLASS`).  The
numeric value is not among the analysed sources; only its identity matters. -/
def PgAdvisoryLockId1 : Nat := 1

/-- Modelled from the spec: the advisory lock key used by the scheduler
(`PgAdvisoryLockId2JobScheduling`; spec section 4.G:
`key=JOB_SCHEDULING_KEY`).  The numeric value is not among the analysed
sources; only its identity matters. -/
def PgAdvisoryLockId2JobScheduling : Nat := 2

/-- The store operations a scheduler tick performs, in order. -/
inductive SchedOp where
  | takeAdvisoryLock (id1 : Nat) (id2 : Nat)
  | loadJobExecutionForScheduling
  | startJobExecution (id : Nat)
deriving Repr, DecidableEq

/-- Whether a job execution is schedulable at `now`: in the `created` state,
with `scheduled_at` set and not in the future, and its job not disabled. -/
def schedulable (db : SchedDb) (now : Nat) (je : JobExecution) : Bool :=
  je.status == "created" &&
  (match je.scheduledAt with
   | some t => decide (t ≤ now)
   | none => false) &&
  !(db.disabledJobs.contains je.jobId)

/-- Modelled from the spec: `eventline.LoadJobExecutionForScheduling` lives in
`pkg/eventline`, which is not among the analysed sources.  Per spec section
4.G step 3, it returns "the row ordered by `scheduled_at ASC` among those in
the `created` state whose `scheduled_at <= now()`, skipping executions whose
job is disabled"; per spec section 5 the selection is total-ordered by
`(scheduled_at, id)`.  (The concurrency-policy skip, which the spec notes is
not fully parameterised in the source, is not modelled.) -/
def LoadJobExecutionForScheduling (db : SchedDb) (now : Nat) :
    Option JobExecution :=
  (db.jobExecutions.filter (schedulable db now)).foldl
    (fun best je =>
      match best with
      | none => some je
      | some b =>
          if je.scheduledAt.getD 0 < b.scheduledAt.getD 0 ∨
             (je.scheduledAt.getD 0 = b.scheduledAt.getD 0 ∧ je.id < b.id) then
            some je
          else some b)
    none

/-- Modelled from the spec: `Service.StartJobExecution` is not among the
analysed sources.  Per spec section 4.G step 5, it transitions the selected
execution from `created` to `started` and sets `started_at = now()`; the
driver handoff of step 7 does not change the scheduler-visible row. -/
def StartJobExecution (db : SchedDb) (je : JobExecution) (now : Nat) : SchedDb :=
  { db with
    jobExecutions := db.jobExecutions.map fun r =>
      if r.id == je.id then { r with status := "started", startedAt := some now }
      else r }

/-- `ProcessJob` (job_scheduler.go lines 33-68): inside one `WithTx`
transaction, take the job-scheduling advisory lock, load the next schedulable
job execution, and, when there is one, start it; when there is none the
closure returns `nil` and the transaction commits with no row changed.
Returns `(processed, error)` as in the source, together with the resulting
store state and the trace of store operations in order.  Taking the blocking
advisory lock and the load itself are modelled as succeeding; the advisory
lock is taken first, so the selection below is serialized across workers. -/
def ProcessJob (db : SchedDb) (now : Nat) :
    (Bool × Option String) × SchedDb × List SchedOp :=
  let ops :=
    [SchedOp.takeAdvisoryLock PgAdvisoryLockId1 PgAdvisoryLockId2JobScheduling,
     SchedOp.loadJobExecutionForScheduling]
  match LoadJobExecutionForScheduling db now with
  | none => ((false, none), db, ops)
  | some je =>
      ((true, none), StartJobExecution db je now,
       ops ++ [SchedOp.startJobExecution je.id])

end service

/-! ## The SSH runner (`pkg/runners/ssh/runner.go`) -/

namespace ssh

/-- The SSH runner configuration (`RunnerCfg`): the user-provided root
directory under which per-execution directories are created. -/
structure RunnerCfg where
  rootDirectory : String
deriving Repr, DecidableEq

/-- The SSH runner state (runner.go lines 16-24): the configuration, the
per-execution root path, and the two client handles, absent until `Init`
allocates them. -/
structure Runner where
  cfg : RunnerCfg
  rootPath : String
  sshClient : Option Unit
  sftpClient : Option Unit
deriving Repr, DecidableEq

/-- `NewRunner` (runner.go lines 37-51): the behaviour instance for a job
execution, with `rootPath = path.Join(cfg.RootDirectory, je.Id.String())`
and no client allocated yet. -/
def NewRunner (cfg : RunnerCfg) (executionId : String) : Runner :=
  { cfg := cfg, rootPath := cfg.rootDirectory ++ "/" ++ executionId,
    sshClient := none, sftpClient := none }

/-- `DirPath` (runner.go lines 53-55). -/
def DirPath (r : Runner) : String := r.rootPath

/-- The outcomes of the external calls made by `Init`: connecting the SSH
client, creating the SFTP client over it, and uploading the file set. -/
structure InitEnv where
  connectOk : Bool
  sftpOk : Bool
  uploadOk : Bool
deriving Repr, DecidableEq

/-- `Init` (runner.go lines 57-74): connect, then create the SFTP client,
then upload the file set; each failure returns early, leaving the clients
allocated so far in the runner state. -/
def Init (r : Runner) (env : InitEnv) : Runner × Option String :=
  if env.connectOk = false then (r, some "cannot connect")
  else
    let r1 := { r with sshClient := some () }
    if env.sftpOk = false then (r1, some "cannot create sftp client")
    else
      let r2 := { r1 with sftpClient := some () }
      if env.uploadOk = false then (r2, some "cannot upload file set")
      else (r2, none)

/-- The externally visible actions of the runner on its backend. -/
inductive RunnerAction where
  | deleteDirectoryContent (dir : String)
  | closeSftpClient
  | closeSshClient
  | signalRemoteProcess (sig : String)
  | closeSession
deriving Repr, DecidableEq

/-- `Terminate` (runner.go lines 76-93): when the SFTP client exists, delete
the content of the configured root directory (the source comments: "we delete
all files *in* the root directory, but not the root directory itself; it is
provided by the user") and close the SFTP client; when the SSH client exists,
close it.  Returns the actions performed, in order. -/
def Terminate (r : Runner) : List RunnerAction :=
  (if r.sftpClient.isSome then
    [RunnerAction.deleteDirectoryContent r.cfg.rootDirectory,
     RunnerAction.closeSftpClient]
   else []) ++
  (if r.sshClient.isSome then [RunnerAction.closeSshClient] else [])

/-- Whether path `p` lies strictly inside directory `dir` (that is, `dir ++
"/"` is a prefix of `p`). -/
def isPathInside (dir p : String) : Bool :=
  (dir ++ "/").data.isPrefixOf p.data

/-- Modelled from the spec: `deleteDirectoryContent` lives in another file of
`pkg/runners/ssh`, not among the analysed sources.  Per spec section 4.C the
SSH runner "on terminate deletes the *contents* of the root directory (never
the root itself, which belongs to the user)"; on a file system modelled as a
list of paths, it removes every path strictly inside `dir` and keeps every
other path, `dir` itself included. -/
def deleteDirectoryContent (dir : String) (fs : List String) : List String :=
  fs.filter fun p => !(isPathInside dir p)

/-- The effect of one runner action on the remote file system. -/
def applyAction (fs : List String) : RunnerAction → List String
  | RunnerAction.deleteDirectoryContent dir => deleteDirectoryContent dir fs
  | _ => fs

/-- The remote file system after running `Terminate`. -/
def terminateFs (r : Runner) (fs : List String) : List String :=
  (Terminate r).foldl applyAction fs

/-- The `ssh.ExitError` the external ssh library's `session.Wait` reports for
a command that did not exit cleanly: the exit status (`ExitStatus()`) and,
for a signal-killed program, the signal name (`Signal()`). -/
structure ExitError where
  status : Int
  signal : String
deriving Repr, DecidableEq

/-- A step error: either a rendered message or the untranslated exit error. -/
inductive StepError where
  | message (msg : String)
  | exitError (e : ExitError)
deriving Repr, DecidableEq

/-- `translateExitError` (runner.go lines 146-154): a non-zero exit status
renders as "program exited with status N"; otherwise a non-empty signal
renders as "program killed by signal S"; otherwise the exit error is returned
unchanged. -/
def translateExitError (err : ExitError) : StepError :=
  if err.status != 0 then
    StepError.message ("program exited with status " ++ toString err.status)
  else if err.signal != "" then
    StepError.message ("program killed by signal " ++ err.signal)
  else StepError.exitError err

/-- The result of `ExecuteStep`: success, a step failure
(`eventline.NewStepFailureError` wrapping the translated exit error), the
context-cancelled error, or a transport/session error. -/
inductive StepResult where
  | success
  | stepFailure (e : StepError)
  | contextCanceled
  | otherError (msg : String)
deriving Repr, DecidableEq

/-- What the environment does during `ExecuteStep`: one of the early session
operations fails, or the command runs and either `session.Wait` completes
(with `none` for a clean zero exit, `some e` for an `ssh.ExitError`, or a
non-`ExitError` wait error) or the step context is cancelled before the
command completes. -/
inductive StepEnv where
  | sessionFailed
  | setenvFailed (key : String)
  | startFailed
  | completed (waitResult : Option ExitError)
  | completedOther (msg : String)
  | canceledBeforeCompletion
deriving Repr, DecidableEq

/-- `ExecuteStep` (runner.go lines 95-144): create a session, set the
environment variables, start the command, then select between the wait
result and the context: a completed command's `ExitError` is translated and
wrapped as a step failure, a clean exit is success, and a context
cancellation before completion sends SIGKILL to the remote process and
returns `context.Canceled`.  Returns the result together with the runner
actions performed, in order. -/
def ExecuteStep (env : StepEnv) : StepResult × List RunnerAction :=
  match env with
  | StepEnv.sessionFailed => (StepResult.otherError "cannot open session", [])
  | StepEnv.setenvFailed k =>
      (StepResult.otherError ("cannot set environment variable " ++ k), [])
  | StepEnv.startFailed => (StepResult.otherError "cannot start command", [])
  | StepEnv.completed none => (StepResult.success, [RunnerAction.closeSession])
  | StepEnv.completed (some exitErr) =>
      (StepResult.stepFailure (translateExitError exitErr),
       [RunnerAction.closeSession])
  | StepEnv.completedOther msg =>
      (StepResult.otherError msg, [RunnerAction.closeSession])
  | StepEnv.canceledBeforeCompletion =>
      (StepResult.contextCanceled,
       [RunnerAction.signalRemoteProcess "KILL", RunnerAction.closeSession])

/-- The remote program's outcome: exit with a status, or death by signal. -/
inductive RemoteOutcome where
  | exited (status : Nat)
  | signaled (sig : String)
deriving Repr, DecidableEq

/-- How the external ssh library's `session.Wait`, as consumed by
`translateExitError`, reports a remote outcome: `nil` for a zero exit
status, an `ExitError` with the exit status for a non-zero exit, and an
`ExitError` carrying the signal name for a signal-killed program (spec
section 4.C: `StepFailure{reason}` distinguishes "non-zero exit" from
"signal"). -/
def sessionWait : RemoteOutcome → Option ExitError
  | RemoteOutcome.exited 0 => none
  | RemoteOutcome.exited n => some { status := (n : Int), signal := "" }
  | RemoteOutcome.signaled s => some { status := 0, signal := s }

end ssh

/-! ## Concrete inputs used by counterexamples and witnesses -/

namespace github

/-- A concrete GitHub connector with webhook key `"k"`. -/
def exConnector : Connector := { name := "github", webhookKey := strBytes "k" }

/-- Concrete webhook parameters: organization `acme`, repository `tool`. -/
def exParams : Parameters := { organization := "acme", repository := "tool" }

/-- The concrete webhook target for `exParams`. -/
def exTarget : String := "acme/tool"

/-- A subscription to the GitHub `raw` event, active. -/
def exSubRaw : SubscriptionRow :=
  { id := 1, projectId := 10, jobId := 20, identityId := none,
    connector := "github", event := "raw", parameters := "{}",
    creationTime := 0, status := "active", updateDelay := none,
    lastUpdate := none, nextUpdate := none }

/-- A subscription to the GitHub `repository_creation` event, active. -/
def exSubCreate : SubscriptionRow :=
  { exSubRaw with id := 2, event := "repository_creation" }

/-- A subscription to the GitHub `repository_creation` event with status
`inactive`. -/
def exSubInactive : SubscriptionRow :=
  { exSubRaw with id := 3, event := "repository_creation", status := "inactive" }

/-- The `c_github_subscriptions` row for `exSubRaw`, on `(acme, tool)`. -/
def exGsRaw : GithubSubscriptionRow :=
  { id := 1, organization := "acme", repository := "tool" }

/-- The `c_github_subscriptions` row for `exSubCreate`, on `(acme, tool)`. -/
def exGsCreate : GithubSubscriptionRow :=
  { id := 2, organization := "acme", repository := "tool" }

/-- The `c_github_subscriptions` row for `exSubInactive`, on `(acme, tool)`. -/
def exGsInactive : GithubSubscriptionRow :=
  { id := 3, organization := "acme", repository := "tool" }

/-- A store holding only the inactive `repository_creation` subscription. -/
def dbInactiveOnly : Db :=
  { subscriptions := [exSubInactive], githubSubscriptions := [exGsInactive],
    events := [] }

/-- A store with no subscriptions at all. -/
def dbEmpty : Db :=
  { subscriptions := [], githubSubscriptions := [], events := [] }

/-- A store with one `raw` and one `repository_creation` subscription. -/
def dbRawAndCreate : Db :=
  { subscriptions := [exSubRaw, exSubCreate],
    githubSubscriptions := [exGsRaw, exGsCreate], events := [] }

/-- A store with only the `raw` subscription. -/
def dbRawOnly : Db :=
  { subscriptions := [exSubRaw], githubSubscriptions := [exGsRaw], events := [] }

/-- The raw body of the concrete webhook requests: the bytes of `"{}"`. -/
def exBody : List Nat := strBytes "{}"

/-- The secret derived for the concrete target. -/
def exSecret : String := WebhookSecret exConnector exTarget

/-- The signature header of a request correctly signed with `exSecret` over
`exBody`. -/
def exSignature : String := githubSignature exSecret exBody

/-- A correctly signed `repository` webhook request with `action=created`,
organization `acme` and repository `tool`. -/
def reqCreated : WebhookRequest :=
  { body := exBody, signatureHeader := exSignature, deliveryId := "d1",
    eventType := "repository", jsonBody := some "{}",
    parsedEvent := some (ParsedEvent.repository (some "created")
      (some { login := some "acme" })
      (some { name := some "tool", createdAt := some 5, updatedAt := none })) }

/-- A correctly signed `repository` webhook request with `action=created`
whose payload has no organization. -/
def reqMissingOrg : WebhookRequest :=
  { reqCreated with
    parsedEvent := some (ParsedEvent.repository (some "created") none none) }

/-- A correctly signed request whose body is not valid JSON. -/
def reqBadJson : WebhookRequest :=
  { reqCreated with jsonBody := none, parsedEvent := none }

/-- A request carrying a wrong signature. -/
def reqBadSignature : WebhookRequest :=
  { reqCreated with signatureHeader := "sha256=deadbeef" }

/-- The insert oracle that fails exactly on `repository_creation` rows. -/
def failTypedInsert : EventRow → Bool := fun e => e.name == "repository_creation"

/-- Concrete webhook parameters with an empty repository string. -/
def exParamsNoRepo : Parameters := { organization := "acme", repository := "" }

end github

namespace service

/-- A scheduler store with no job executions. -/
def dbSchedEmpty : SchedDb := { jobExecutions := [], disabledJobs := [] }

end service

namespace ssh

/-- The default runner configuration from `RunnerDef` (runner.go lines
26-35). -/
def exCfg : RunnerCfg := { rootDirectory := "/tmp/eventline/execution" }

/-- A fully initialised runner for execution id `abc`. -/
def exRunnerFull : Runner :=
  { cfg := exCfg, rootPath := "/tmp/eventline/execution/abc",
    sshClient := some (), sftpClient := some () }

/-- A concrete remote file system: the root directory, a file inside it, and
an unrelated file. -/
def exFs : List String :=
  ["/tmp/eventline/execution", "/tmp/eventline/execution/abc/script",
   "/etc/passwd"]

end ssh

/-! ## Theorems

Helper lemmas first, then one theorem (plus witness or counterexample) per
claim of the specification review. -/

/-- No list has an element satisfying the constantly-false oracle. -/
theorem any_noInsertFailures (l : List github.EventRow) :
    l.any github.noInsertFailures = false := by
  induction l with
  | nil => rfl
  | cons a l ih => simp [List.any_cons, ih, github.noInsertFailures]

/-- Membership in the subscription matcher's result, unfolded to the SQL
conditions. -/
theorem mem_loadSubscriptionsByParams {db : github.Db} {ename : String}
    {params : github.Parameters} {s : github.SubscriptionRow} :
    s ∈ github.LoadSubscriptionsByParams db ename params ↔
      s ∈ db.subscriptions ∧ ∃ gs ∈ db.githubSubscriptions, gs.id = s.id ∧
        s.connector = "github" ∧ s.event = ename ∧
        gs.organization = params.organization ∧
        (params.repository = "" ∨ gs.repository = params.repository) := by
  simp only [github.LoadSubscriptionsByParams, List.mem_filter,
    List.any_eq_true, Bool.and_eq_true, Bool.or_eq_true, beq_iff_eq]
  constructor
  · rintro ⟨hs, gs, hgs, ⟨⟨⟨⟨hid, hconn⟩, hev⟩, horg⟩, hrepo⟩⟩
    exact ⟨hs, gs, hgs, hid, hconn, hev, horg, hrepo⟩
  · rintro ⟨hs, gs, hgs, hid, hconn, hev, horg, hrepo⟩
    exact ⟨hs, gs, hgs, ⟨⟨⟨⟨hid, hconn⟩, hev⟩, horg⟩, hrepo⟩⟩

/-- C1 — counterexample: on a store whose only subscription has status
`inactive`, the matcher still returns that subscription for a matching
`(event, organization, repository)` query, so the selection is not restricted
to `status = 'active'` rows. -/
theorem loadSubscriptionsByParams_selects_inactive :
    ∃ s ∈ github.LoadSubscriptionsByParams github.dbInactiveOnly
        "repository_creation" github.exParams, s.status = "inactive" := by
  decide

/-- C1 (amended) — the subscription matcher returns only rows of the
subscriptions table that satisfy `connector = 'github'` and `event =` the
given event name and join a github sub-table row matching the organization
(and the repository, when one is given); it applies no condition on the
subscription status. -/
theorem loadSubscriptionsByParams_connector_event {db : github.Db}
    {ename : String} {params : github.Parameters} {s : github.SubscriptionRow}
    (h : s ∈ github.LoadSubscriptionsByParams db ename params) :
    s ∈ db.subscriptions ∧ s.connector = "github" ∧ s.event = ename := by
  obtain ⟨hs, gs, _, _, hconn, hev, _, _⟩ := mem_loadSubscriptionsByParams.mp h
  exact ⟨hs, hconn, hev⟩

/-- C1 (amended) — witness: the inactive subscription selected above is
indeed a `github` subscription on the queried event name. -/
theorem loadSubscriptionsByParams_connector_event_witness :
    github.exSubInactive ∈ github.LoadSubscriptionsByParams github.dbInactiveOnly
      "repository_creation" github.exParams ∧
    github.exSubInactive ∈ github.dbInactiveOnly.subscriptions ∧
    github.exSubInactive.connector = "github" ∧
    github.exSubInactive.event = "repository_creation" :=
  ⟨by decide,
    @loadSubscriptionsByParams_connector_event github.dbInactiveOnly
      "repository_creation" github.exParams github.exSubInactive (by decide)⟩

/-- C10 — when the webhook parameters carry an empty repository string the
repository condition is dropped entirely (the matcher returns the rows for
every repository of the organization), and when it is non-empty only rows
whose sub-table repository equals it are returned. -/
theorem loadSubscriptionsByParams_repository_condition (db : github.Db)
    (ename : String) (params : github.Parameters) (s : github.SubscriptionRow) :
    (params.repository = "" →
      (s ∈ github.LoadSubscriptionsByParams db ename params ↔
        s ∈ db.subscriptions ∧ ∃ gs ∈ db.githubSubscriptions, gs.id = s.id ∧
          s.connector = "github" ∧ s.event = ename ∧
          gs.organization = params.organization)) ∧
    (params.repository ≠ "" →
      (s ∈ github.LoadSubscriptionsByParams db ename params ↔
        s ∈ db.subscriptions ∧ ∃ gs ∈ db.githubSubscriptions, gs.id = s.id ∧
          s.connector = "github" ∧ s.event = ename ∧
          gs.organization = params.organization ∧
          gs.repository = params.repository)) := by
  constructor
  · intro hempty
    rw [mem_loadSubscriptionsByParams]
    constructor
    · rintro ⟨hs, gs, hgs, hid, hconn, hev, horg, _⟩
      exact ⟨hs, gs, hgs, hid, hconn, hev, horg⟩
    · rintro ⟨hs, gs, hgs, hid, hconn, hev, horg⟩
      exact ⟨hs, gs, hgs, hid, hconn, hev, horg, Or.inl hempty⟩
  · intro hne
    rw [mem_loadSubscriptionsByParams]
    constructor
    · rintro ⟨hs, gs, hgs, hid, hconn, hev, horg, hrepo⟩
      rcases hrepo with h | h
      · exact absurd h hne
      · exact ⟨hs, gs, hgs, hid, hconn, hev, horg, h⟩
    · rintro ⟨hs, gs, hgs, hid, hconn, hev, horg, hrepo⟩
      exact ⟨hs, gs, hgs, hid, hconn, hev, horg, Or.inr hrepo⟩

/-- C10 — witness: with an empty repository parameter the matcher returns the
subscription regardless of its sub-table repository `tool`, and with
repository `tool` it still matches while the characterisation requires the
exact equality. -/
theorem loadSubscriptionsByParams_repository_condition_witness :
    github.exParamsNoRepo.repository = "" ∧
    (github.exSubInactive ∈ github.LoadSubscriptionsByParams github.dbInactiveOnly
        "repository_creation" github.exParamsNoRepo ↔
      github.exSubInactive ∈ github.dbInactiveOnly.subscriptions ∧
      ∃ gs ∈ github.dbInactiveOnly.githubSubscriptions,
        gs.id = github.exSubInactive.id ∧
        github.exSubInactive.connector = "github" ∧
        github.exSubInactive.event = "repository_creation" ∧
        gs.organization = github.exParamsNoRepo.organization) :=
  ⟨rfl,
    (loadSubscriptionsByParams_repository_condition github.dbInactiveOnly
      "repository_creation" github.exParamsNoRepo github.exSubInactive).1 rfl⟩

/-- C5 — every scheduler tick takes the job-scheduling advisory lock inside
the transaction and only then queries for the next schedulable execution;
when no schedulable execution exists the tick commits with the store
unchanged, transitions nothing, and returns `(false, nil)`. -/
theorem processJob_lock_then_query (db : service.SchedDb) (now : Nat) :
    ((service.ProcessJob db now).2.2.take 2 =
      [service.SchedOp.takeAdvisoryLock service.PgAdvisoryLockId1
         service.PgAdvisoryLockId2JobScheduling,
       service.SchedOp.loadJobExecutionForScheduling]) ∧
    (service.LoadJobExecutionForScheduling db now = none →
      service.ProcessJob db now =
        ((false, none), db,
         [service.SchedOp.takeAdvisoryLock service.PgAdvisoryLockId1
            service.PgAdvisoryLockId2JobScheduling,
          service.SchedOp.loadJobExecutionForScheduling])) := by
  constructor
  · unfold service.ProcessJob
    cases service.LoadJobExecutionForScheduling db now <;> simp
  · intro h
    unfold service.ProcessJob
    rw [h]

/-- C5 — witness: on an empty store the tick takes the lock, queries, finds
nothing, and returns `(false, nil)` with no transition. -/
theorem processJob_lock_then_query_witness :
    service.LoadJobExecutionForScheduling service.dbSchedEmpty 0 = none ∧
    service.ProcessJob service.dbSchedEmpty 0 =
      ((false, none), service.dbSchedEmpty,
       [service.SchedOp.takeAdvisoryLock service.PgAdvisoryLockId1
          service.PgAdvisoryLockId2JobScheduling,
        service.SchedOp.loadJobExecutionForScheduling]) :=
  ⟨rfl, (processJob_lock_then_query service.dbSchedEmpty 0).2 rfl⟩

/-- C6 — a remote program exiting with a non-zero status `n` makes
`ExecuteStep` return a step failure with message
"program exited with status n", a signal-killed program yields
"program killed by signal s", and a zero exit status yields success. -/
theorem executeStep_exit_translation (n : Nat) (s : String) (hn : n ≠ 0)
    (hs : s ≠ "") :
    ssh.ExecuteStep (ssh.StepEnv.completed (ssh.sessionWait
        (ssh.RemoteOutcome.exited n))) =
      (ssh.StepResult.stepFailure (ssh.StepError.message
        ("program exited with status " ++ toString (n : Int))),
       [ssh.RunnerAction.closeSession]) ∧
    ssh.ExecuteStep (ssh.StepEnv.completed (ssh.sessionWait
        (ssh.RemoteOutcome.signaled s))) =
      (ssh.StepResult.stepFailure (ssh.StepError.message
        ("program killed by signal " ++ s)),
       [ssh.RunnerAction.closeSession]) ∧
    ssh.ExecuteStep (ssh.StepEnv.completed (ssh.sessionWait
        (ssh.RemoteOutcome.exited 0))) =
      (ssh.StepResult.success, [ssh.RunnerAction.closeSession]) := by
  refine ⟨?_, ?_, rfl⟩
  · cases n with
    | zero => exact absurd rfl hn
    | succ m =>
        simp [ssh.sessionWait, ssh.ExecuteStep, ssh.translateExitError]
        omega
  · simp [ssh.sessionWait, ssh.ExecuteStep, ssh.translateExitError, hs]

/-- C6 — witness: exit status 2 yields the step failure
"program exited with status 2" (the spec's scenario 3), signal `TERM` yields
"program killed by signal TERM", and exit status 0 yields success. -/
theorem executeStep_exit_translation_witness :
    (2 : Nat) ≠ 0 ∧ "TERM" ≠ "" ∧
    (ssh.ExecuteStep (ssh.StepEnv.completed (ssh.sessionWait
        (ssh.RemoteOutcome.exited 2))) =
      (ssh.StepResult.stepFailure (ssh.StepError.message
        ("program exited with status " ++ toString ((2 : Nat) : Int))),
       [ssh.RunnerAction.closeSession]) ∧
    ssh.ExecuteStep (ssh.StepEnv.completed (ssh.sessionWait
        (ssh.RemoteOutcome.signaled "TERM"))) =
      (ssh.StepResult.stepFailure (ssh.StepError.message
        ("program killed by signal " ++ "TERM")),
       [ssh.RunnerAction.closeSession]) ∧
    ssh.ExecuteStep (ssh.StepEnv.completed (ssh.sessionWait
        (ssh.RemoteOutcome.exited 0))) =
      (ssh.StepResult.success, [ssh.RunnerAction.closeSession])) :=
  ⟨by decide, by decide, executeStep_exit_translation 2 "TERM" (by decide) (by decide)⟩

/-- C9 — a context cancellation before the remote command completes makes
`ExecuteStep` send SIGKILL to the remote process and return the
context-cancelled error, never a step failure and never success. -/
theorem executeStep_cancellation :
    ssh.ExecuteStep ssh.StepEnv.canceledBeforeCompletion =
      (ssh.StepResult.contextCanceled,
       [ssh.RunnerAction.signalRemoteProcess "KILL",
        ssh.RunnerAction.closeSession]) ∧
    (∀ e, (ssh.ExecuteStep ssh.StepEnv.canceledBeforeCompletion).1 ≠
      ssh.StepResult.stepFailure e) ∧
    (ssh.ExecuteStep ssh.StepEnv.canceledBeforeCompletion).1 ≠
      ssh.StepResult.success := by
  refine ⟨rfl, ?_, by decide⟩
  intro e
  simp [ssh.ExecuteStep]

/-- The net effect of `Terminate` on the remote file system: the content of
the configured root directory is deleted exactly when the SFTP client
exists. -/
theorem terminateFs_eq (r : ssh.Runner) (fs : List String) :
    ssh.terminateFs r fs =
      if r.sftpClient.isSome then
        ssh.deleteDirectoryContent r.cfg.rootDirectory fs
      else fs := by
  cases hsftp : r.sftpClient <;> cases hssh : r.sshClient <;>
    simp [ssh.terminateFs, ssh.Terminate, hsftp, hssh, ssh.applyAction]

/-- A directory does not lie strictly inside itself. -/
theorem isPathInside_self (d : String) : ssh.isPathInside d d = false := by
  rw [ssh.isPathInside, Bool.eq_false_iff]
  intro h
  have hp := List.isPrefixOf_iff_prefix.mp h
  have := hp.length_le
  simp [String.data_append] at this

/-- C8 — `Terminate` is safe after a partial `Init`: with no SSH client it
performs no action at all, and with an SSH client but no SFTP client it only
closes the SSH client; and whenever it deletes, it deletes only paths
strictly inside the configured root directory, never the root directory
itself. -/
theorem terminate_partial_init_safe (cfg : ssh.RunnerCfg) (execId : String)
    (env : ssh.InitEnv) (r : ssh.Runner) (fs : List String) (p : String) :
    (env.connectOk = false →
      ssh.Terminate (ssh.Init (ssh.NewRunner cfg execId) env).1 = []) ∧
    (env.connectOk = true → env.sftpOk = false →
      ssh.Terminate (ssh.Init (ssh.NewRunner cfg execId) env).1 =
        [ssh.RunnerAction.closeSshClient]) ∧
    (r.cfg.rootDirectory ∈ fs →
      r.cfg.rootDirectory ∈ ssh.terminateFs r fs) ∧
    (p ∈ fs → p ∉ ssh.terminateFs r fs →
      ssh.isPathInside r.cfg.rootDirectory p = true) := by
  refine ⟨?_, ?_, ?_, ?_⟩
  · intro h
    simp [ssh.Init, ssh.NewRunner, h, ssh.Terminate]
  · intro hc hs
    simp [ssh.Init, ssh.NewRunner, hc, hs, ssh.Terminate]
  · intro hmem
    rw [terminateFs_eq]
    cases r.sftpClient <;> simp [ssh.deleteDirectoryContent, hmem]
    exact isPathInside_self r.cfg.rootDirectory
  · intro hmem hout
    rw [terminateFs_eq] at hout
    cases hsftp : r.sftpClient with
    | none => rw [hsftp] at hout; simp at hout; exact absurd hmem hout
    | some u =>
        rw [hsftp] at hout
        simp [ssh.deleteDirectoryContent, List.mem_filter, hmem] at hout
        exact hout

/-- C8 — witness: a runner that failed to connect terminates with no action;
one that connected but got no SFTP client only closes the SSH client; on a
fully initialised runner over a concrete file system, the root directory
survives termination while a file inside it is deleted (and is indeed
strictly inside the root). -/
theorem terminate_partial_init_safe_witness :
    (ssh.Terminate (ssh.Init (ssh.NewRunner ssh.exCfg "abc")
        { connectOk := false, sftpOk := false, uploadOk := false }).1 = []) ∧
    (ssh.Terminate (ssh.Init (ssh.NewRunner ssh.exCfg "abc")
        { connectOk := true, sftpOk := false, uploadOk := false }).1 =
      [ssh.RunnerAction.closeSshClient]) ∧
    ssh.exRunnerFull.cfg.rootDirectory ∈ ssh.terminateFs ssh.exRunnerFull ssh.exFs ∧
    ssh.isPathInside ssh.exRunnerFull.cfg.rootDirectory
      "/tmp/eventline/execution/abc/script" = true :=
  ⟨(terminate_partial_init_safe ssh.exCfg "abc"
      { connectOk := false, sftpOk := false, uploadOk := false }
      ssh.exRunnerFull ssh.exFs "").1 rfl,
   (terminate_partial_init_safe ssh.exCfg "abc"
      { connectOk := true, sftpOk := false, uploadOk := false }
      ssh.exRunnerFull ssh.exFs "").2.1 rfl rfl,
   (terminate_partial_init_safe ssh.exCfg "abc"
      { connectOk := true, sftpOk := false, uploadOk := false }
      ssh.exRunnerFull ssh.exFs "").2.2.1 (by decide),
   (terminate_partial_init_safe ssh.exCfg "abc"
      { connectOk := true, sftpOk := false, uploadOk := false }
      ssh.exRunnerFull ssh.exFs "/tmp/eventline/execution/abc/script").2.2.2
     (by decide) (by decide)⟩

/-- `CreateEvents` has exactly two outcomes: the whole transaction rolls back
leaving the store untouched, or all the per-subscription rows are appended. -/
theorem createEvents_cases (cname : String) (fails : github.EventRow → Bool)
    (now : Nat) (ename : String) (etime : Option Nat) (d : github.EventData)
    (params : github.Parameters) (db : github.Db) :
    github.CreateEvents cname fails now ename etime d params db =
      (Except.error "cannot insert event", github.TxResult.rolledBack) ∨
    github.CreateEvents cname fails now ename etime d params db =
      (Except.ok { db with events := db.events ++
          ((github.LoadSubscriptionsByParams db ename params).map fun sub =>
            sub.NewEvent cname ename etime d now) },
       github.TxResult.committed
         ((github.LoadSubscriptionsByParams db ename params).map fun sub =>
           sub.NewEvent cname ename etime d now)) := by
  unfold github.CreateEvents
  by_cases h : ((github.LoadSubscriptionsByParams db ename params).map fun sub =>
      sub.NewEvent cname ename etime d now).any fails = true
  · left; simp [h]
  · right; simp [h]

/-- Under the never-failing insert oracle, `CreateEvents` commits the
per-subscription rows. -/
theorem createEvents_noFail (cname : String) (now : Nat) (ename : String)
    (etime : Option Nat) (d : github.EventData) (params : github.Parameters)
    (db : github.Db) :
    github.CreateEvents cname github.noInsertFailures now ename etime d params db =
      (Except.ok { db with events := db.events ++
          ((github.LoadSubscriptionsByParams db ename params).map fun sub =>
            sub.NewEvent cname ename etime d now) },
       github.TxResult.committed
         ((github.LoadSubscriptionsByParams db ename params).map fun sub =>
           sub.NewEvent cname ename etime d now)) := by
  simp [github.CreateEvents, any_noInsertFailures]

/-- Every row built from a subscription list carries the given event name and
data. -/
theorem mem_map_newEvent {subs : List github.SubscriptionRow} {cname : String}
    {ename : String} {etime : Option Nat} {d : github.EventData} {now : Nat}
    {e : github.EventRow}
    (h : e ∈ subs.map fun sub => sub.NewEvent cname ename etime d now) :
    e.name = ename ∧ e.data = d := by
  obtain ⟨sub, _, rfl⟩ := List.mem_map.mp h
  exact ⟨rfl, rfl⟩

/-- C7 — the webhook secret equals the lowercase hex HMAC-SHA256 of the
target under the webhook key, the derivation being a pure function of the
two (no database state is read); a signature computed with that secret over
a raw body passes the signature check, and a request whose signature header
is computed with that secret is never rejected by `ProcessWebhookRequest`
with the invalid-signature error. -/
theorem webhookSecret_roundTrip (c : github.Connector) (target : String)
    (body : List Nat) (fails : github.EventRow → Bool) (now : Nat)
    (req : github.WebhookRequest) (params : github.Parameters)
    (db : github.Db)
    (hsig : req.signatureHeader =
      github.githubSignature (github.WebhookSecret c target) req.body) :
    github.WebhookSecret c target =
      hexEncode (hmacSha256 c.webhookKey (strBytes target)) ∧
    github.validatePayload
      (github.githubSignature (github.WebhookSecret c target) body) body
      (github.WebhookSecret c target) = true ∧
    (github.ProcessWebhookRequest c fails now req target params db).1 ≠
      some github.ProcessError.invalidSignature := by
  refine ⟨rfl, by simp [github.validatePayload], ?_⟩
  have hv : github.validatePayload req.signatureHeader req.body
      (github.WebhookSecret c target) = true := by
    simp [github.validatePayload, hsig]
  unfold github.ProcessWebhookRequest
  dsimp only
  rw [hv]
  simp only [eq_self_iff_true, if_true]
  cases req.jsonBody with
  | none => simp
  | some rawMsg =>
    dsimp only
    rcases createEvents_cases c.name fails now "raw" none
        (github.EventData.raw req.deliveryId req.eventType rawMsg) params db
      with h | h <;> rw [h]
    · simp
    · cases hpe : req.parsedEvent with
      | none => simp
      | some pe =>
        cases pe with
        | push => simp
        | other t => simp
        | repository action org repo =>
          cases action with
          | none => simp
          | some a =>
            by_cases hc : (a == "created") = true
            · simp only [hc, if_true]
              unfold github.processWebhookEventRepositoryCreated
              rcases org with _ | ⟨_ | login⟩
              · simp
              · simp
              · rcases repo with _ | ⟨_ | rname, cAt, uAt⟩
                · simp
                · simp
                · dsimp only
                  rcases createEvents_cases c.name fails now
                      "repository_creation" cAt
                      (github.EventData.repositoryCreation login rname)
                      params _ with h2 | h2 <;> rw [h2] <;> simp
            · simp only [hc, if_false]
              by_cases hd : (a == "deleted") = true
              · simp only [hd, if_true]
                unfold github.processWebhookEventRepositoryDeleted
                rcases org with _ | ⟨_ | login⟩
                · simp
                · simp
                · rcases repo with _ | ⟨_ | rname, cAt, uAt⟩
                  · simp
                  · simp
                  · dsimp only
                    rcases createEvents_cases c.name fails now
                        "repository_deletion" uAt
                        (github.EventData.repositoryDeletion login rname)
                        params _ with h2 | h2 <;> rw [h2] <;> simp
              · simp [hd]

/-- C7 — witness: the concrete correctly-signed request passes verification
and is not rejected as having an invalid signature. -/
theorem webhookSecret_roundTrip_witness :
    github.reqCreated.signatureHeader =
      github.githubSignature
        (github.WebhookSecret github.exConnector github.exTarget)
        github.reqCreated.body ∧
    github.WebhookSecret github.exConnector github.exTarget =
      hexEncode (hmacSha256 github.exConnector.webhookKey
        (strBytes github.exTarget)) ∧
    github.validatePayload
      (github.githubSignature
        (github.WebhookSecret github.exConnector github.exTarget)
        github.exBody)
      github.exBody
      (github.WebhookSecret github.exConnector github.exTarget) = true ∧
    (github.ProcessWebhookRequest github.exConnector github.noInsertFailures 0
      github.reqCreated github.exTarget github.exParams github.dbEmpty).1 ≠
      some github.ProcessError.invalidSignature :=
  ⟨rfl,
    webhookSecret_roundTrip github.exConnector github.exTarget github.exBody
      github.noInsertFailures 0 github.reqCreated github.exParams
      github.dbEmpty rfl⟩

/-- Under the never-failing insert oracle, the repository-created handler
only ever appends `repository_creation` rows to the store it is given. -/
theorem repoCreatedHandler_noFail_events (c : github.Connector) (now : Nat)
    (org : Option github.GithubOrganization)
    (repo : Option github.GithubRepository) (params : github.Parameters)
    (db1 : github.Db) :
    ∃ typed : List github.EventRow,
      (github.processWebhookEventRepositoryCreated c github.noInsertFailures
        now org repo params db1).2.1.events = db1.events ++ typed ∧
      ∀ e ∈ typed, e.name = "repository_creation" := by
  unfold github.processWebhookEventRepositoryCreated
  rcases org with _ | ⟨_ | login⟩
  · exact ⟨[], by simp⟩
  · exact ⟨[], by simp⟩
  · rcases repo with _ | ⟨_ | rname, cAt, uAt⟩
    · exact ⟨[], by simp⟩
    · exact ⟨[], by simp⟩
    · dsimp only
      rw [createEvents_noFail]
      refine ⟨_, rfl, ?_⟩
      intro e he
      exact (mem_map_newEvent he).1

/-- Under the never-failing insert oracle, the repository-deleted handler
only ever appends `repository_deletion` rows to the store it is given. -/
theorem repoDeletedHandler_noFail_events (c : github.Connector) (now : Nat)
    (org : Option github.GithubOrganization)
    (repo : Option github.GithubRepository) (params : github.Parameters)
    (db1 : github.Db) :
    ∃ typed : List github.EventRow,
      (github.processWebhookEventRepositoryDeleted c github.noInsertFailures
        now org repo params db1).2.1.events = db1.events ++ typed ∧
      ∀ e ∈ typed, e.name = "repository_deletion" := by
  unfold github.processWebhookEventRepositoryDeleted
  rcases org with _ | ⟨_ | login⟩
  · exact ⟨[], by simp⟩
  · exact ⟨[], by simp⟩
  · rcases repo with _ | ⟨_ | rname, cAt, uAt⟩
    · exact ⟨[], by simp⟩
    · exact ⟨[], by simp⟩
    · dsimp only
      rw [createEvents_noFail]
      refine ⟨_, rfl, ?_⟩
      intro e he
      exact (mem_map_newEvent he).1

/-- C2 (amended) — for a request whose signature verifies and whose body
decodes as JSON, processed with no insert failures, the first transaction is
the committed raw-event transaction: one raw event per subscription matching
`("raw", params)`, each carrying the delivery id, the event type and the
payload; typed events are only ever appended after the raw events; and when
no subscription matches the `raw` event name, that transaction commits no
row, so no raw event is created. -/
theorem processWebhook_raw_events_first (c : github.Connector) (now : Nat)
    (req : github.WebhookRequest) (target : String)
    (params : github.Parameters) (db : github.Db) (rawMsg : String)
    (hsig : github.validatePayload req.signatureHeader req.body
      (github.WebhookSecret c target) = true)
    (hjson : req.jsonBody = some rawMsg) :
    ∃ typed : List github.EventRow,
      (github.ProcessWebhookRequest c github.noInsertFailures now req target
        params db).2.1.events =
        db.events ++ github.rawEventRows c now req params db rawMsg ++ typed ∧
      (github.ProcessWebhookRequest c github.noInsertFailures now req target
        params db).2.2.head? =
        some (github.TxResult.committed
          (github.rawEventRows c now req params db rawMsg)) ∧
      (∀ e ∈ github.rawEventRows c now req params db rawMsg,
        e.name = "raw" ∧
        e.data = github.EventData.raw req.deliveryId req.eventType rawMsg) ∧
      (∀ e ∈ typed, e.name ≠ "raw") := by
  have hraw : ∀ e ∈ github.rawEventRows c now req params db rawMsg,
      e.name = "raw" ∧
      e.data = github.EventData.raw req.deliveryId req.eventType rawMsg := by
    intro e he
    exact mem_map_newEvent he
  unfold github.ProcessWebhookRequest
  dsimp only
  rw [hsig]
  simp only [eq_self_iff_true, if_true]
  rw [hjson]
  dsimp only
  rw [createEvents_noFail]
  dsimp only
  cases hpe : req.parsedEvent with
  | none =>
      exact ⟨[], by simp [github.rawEventRows], rfl, hraw, by simp⟩
  | some pe =>
    cases pe with
    | push => exact ⟨[], by simp [github.rawEventRows], rfl, hraw, by simp⟩
    | other t => exact ⟨[], by simp [github.rawEventRows], rfl, hraw, by simp⟩
    | repository action org repo =>
      cases action with
      | none => exact ⟨[], by simp [github.rawEventRows], rfl, hraw, by simp⟩
      | some a =>
        dsimp only
        by_cases hc : (a == "created") = true
        · rw [if_pos hc]
          obtain ⟨typed, hev, hty⟩ := repoCreatedHandler_noFail_events c now
            org repo params _
          refine ⟨typed, ?_, rfl, hraw, ?_⟩
          · rw [hev]
            simp [github.rawEventRows, List.append_assoc]
          · intro e he
            rw [hty e he]
            simp
        · rw [if_neg hc]
          by_cases hd : (a == "deleted") = true
          · rw [if_pos hd]
            obtain ⟨typed, hev, hty⟩ := repoDeletedHandler_noFail_events c now
              org repo params _
            refine ⟨typed, ?_, rfl, hraw, ?_⟩
            · rw [hev]
              simp [github.rawEventRows, List.append_assoc]
            · intro e he
              rw [hty e he]
              simp
          · rw [if_neg hd]
            exact ⟨[], by simp [github.rawEventRows], rfl, hraw, by simp⟩

/-- Any request whose signature header is the concrete correctly computed
signature over the concrete body passes the signature check for the concrete
target (proved structurally - signing and verifying recompute the same
HMAC). -/
theorem validate_signed_concrete (req : github.WebhookRequest)
    (h1 : req.signatureHeader = github.exSignature)
    (h2 : req.body = github.exBody) :
    github.validatePayload req.signatureHeader req.body
      (github.WebhookSecret github.exConnector github.exTarget) = true := by
  simp [h1, h2, github.validatePayload, github.exSignature, github.exSecret]

/-- C2 (amended) — witness: on the store holding one `raw` subscription, the
concrete correctly-signed `repository created` request commits its raw-event
transaction first. -/
theorem processWebhook_raw_events_first_witness :
    github.validatePayload github.reqCreated.signatureHeader
      github.reqCreated.body
      (github.WebhookSecret github.exConnector github.exTarget) = true ∧
    github.reqCreated.jsonBody = some "{}" ∧
    (∃ typed : List github.EventRow,
      (github.ProcessWebhookRequest github.exConnector github.noInsertFailures
        0 github.reqCreated github.exTarget github.exParams
        github.dbRawOnly).2.1.events =
        github.dbRawOnly.events ++
          github.rawEventRows github.exConnector 0 github.reqCreated
            github.exParams github.dbRawOnly "{}" ++ typed ∧
      (github.ProcessWebhookRequest github.exConnector github.noInsertFailures
        0 github.reqCreated github.exTarget github.exParams
        github.dbRawOnly).2.2.head? =
        some (github.TxResult.committed
          (github.rawEventRows github.exConnector 0 github.reqCreated
            github.exParams github.dbRawOnly "{}")) ∧
      (∀ e ∈ github.rawEventRows github.exConnector 0 github.reqCreated
          github.exParams github.dbRawOnly "{}",
        e.name = "raw" ∧
        e.data = github.EventData.raw github.reqCreated.deliveryId
          github.reqCreated.eventType "{}") ∧
      (∀ e ∈ typed, e.name ≠ "raw")) :=
  ⟨validate_signed_concrete github.reqCreated rfl rfl, rfl,
    processWebhook_raw_events_first github.exConnector 0 github.reqCreated
      github.exTarget github.exParams github.dbRawOnly "{}"
      (validate_signed_concrete github.reqCreated rfl rfl) rfl⟩

/-- C2 — counterexample: a request whose signature verifies and whose body is
valid JSON, processed against a store with no subscriptions, is accepted
without error yet creates no event row at all - in particular no raw event -
because raw events are only created per subscription matching the `raw` event
name. -/
theorem processWebhook_no_raw_event_without_subscription :
    github.validatePayload github.reqCreated.signatureHeader
      github.reqCreated.body
      (github.WebhookSecret github.exConnector github.exTarget) = true ∧
    github.reqCreated.jsonBody = some "{}" ∧
    github.ProcessWebhookRequest github.exConnector github.noInsertFailures 0
      github.reqCreated github.exTarget github.exParams github.dbEmpty =
      (none, github.dbEmpty,
       [github.TxResult.committed [], github.TxResult.committed []]) := by
  have hv := validate_signed_concrete github.reqCreated rfl rfl
  refine ⟨hv, rfl, ?_⟩
  unfold github.ProcessWebhookRequest
  dsimp only
  rw [if_pos hv]
  decide

/-- C3 — counterexample: on a store with one `raw` and one
`repository_creation` subscription, processing a valid `repository created`
request under an insert oracle that fails exactly on `repository_creation`
rows commits the raw event in a first transaction and rolls back only the
typed-event transaction: the request fails, yet the raw event row persists
while the typed event row does not - the events of one request are neither
all persisted nor all absent, and two separate transactions ran. -/
theorem processWebhook_raw_persists_typed_rolled_back :
    (github.rawEventRows github.exConnector 0 github.reqCreated github.exParams
      github.dbRawAndCreate "{}").length = 1 ∧
    github.ProcessWebhookRequest github.exConnector github.failTypedInsert 0
      github.reqCreated github.exTarget github.exParams github.dbRawAndCreate =
      (some github.ProcessError.cannotCreateEvent,
       { github.dbRawAndCreate with
         events := github.dbRawAndCreate.events ++
           github.rawEventRows github.exConnector 0 github.reqCreated
             github.exParams github.dbRawAndCreate "{}" },
       [github.TxResult.committed
          (github.rawEventRows github.exConnector 0 github.reqCreated
            github.exParams github.dbRawAndCreate "{}"),
        github.TxResult.rolledBack]) := by
  have hv := validate_signed_concrete github.reqCreated rfl rfl
  refine ⟨by decide, ?_⟩
  unfold github.ProcessWebhookRequest
  dsimp only
  rw [if_pos hv]
  decide

/-- The repository-created handler appends to the store exactly the rows of
the transactions it commits, and runs at most one transaction. -/
theorem repoCreatedHandler_tx (c : github.Connector)
    (fails : github.EventRow → Bool) (now : Nat)
    (org : Option github.GithubOrganization)
    (repo : Option github.GithubRepository) (params : github.Parameters)
    (db1 : github.Db) :
    (github.processWebhookEventRepositoryCreated c fails now org repo params
      db1).2.1.events =
      db1.events ++
        (((github.processWebhookEventRepositoryCreated c fails now org repo
          params db1).2.2).map github.TxResult.rows).flatten ∧
    ((github.processWebhookEventRepositoryCreated c fails now org repo params
      db1).2.2).length ≤ 1 := by
  unfold github.processWebhookEventRepositoryCreated
  rcases org with _ | ⟨_ | login⟩
  · simp
  · simp
  · rcases repo with _ | ⟨_ | rname, cAt, uAt⟩
    · simp
    · simp
    · dsimp only
      rcases createEvents_cases c.name fails now "repository_creation" cAt
          (github.EventData.repositoryCreation login rname) params db1
        with h | h <;> rw [h] <;> simp [github.TxResult.rows]

/-- The repository-deleted handler appends to the store exactly the rows of
the transactions it commits, and runs at most one transaction. -/
theorem repoDeletedHandler_tx (c : github.Connector)
    (fails : github.EventRow → Bool) (now : Nat)
    (org : Option github.GithubOrganization)
    (repo : Option github.GithubRepository) (params : github.Parameters)
    (db1 : github.Db) :
    (github.processWebhookEventRepositoryDeleted c fails now org repo params
      db1).2.1.events =
      db1.events ++
        (((github.processWebhookEventRepositoryDeleted c fails now org repo
          params db1).2.2).map github.TxResult.rows).flatten ∧
    ((github.processWebhookEventRepositoryDeleted c fails now org repo params
      db1).2.2).length ≤ 1 := by
  unfold github.processWebhookEventRepositoryDeleted
  rcases org with _ | ⟨_ | login⟩
  · simp
  · simp
  · rcases repo with _ | ⟨_ | rname, cAt, uAt⟩
    · simp
    · simp
    · dsimp only
      rcases createEvents_cases c.name fails now "repository_deletion" uAt
          (github.EventData.repositoryDeletion login rname) params db1
        with h | h <;> rw [h] <;> simp [github.TxResult.rows]

/-- C3 (amended) — each `CreateEvents` call is one transaction and is atomic
on its own: it either rolls back leaving the store untouched or appends all
its rows; but the raw and typed events of one webhook request are not
inserted in a single transaction: `ProcessWebhookRequest` runs up to two
separate transactions, and the persisted events are the initial ones plus
the rows of exactly the committed transactions, so a typed-event failure
does not remove the already committed raw events. -/
theorem createEvents_atomic_two_transactions (cname : String)
    (fails : github.EventRow → Bool) (now : Nat) (ename : String)
    (etime : Option Nat) (d : github.EventData) (c : github.Connector)
    (req : github.WebhookRequest) (target : String)
    (params : github.Parameters) (db : github.Db) :
    (github.CreateEvents cname fails now ename etime d params db =
        (Except.error "cannot insert event", github.TxResult.rolledBack) ∨
      ∃ rows, github.CreateEvents cname fails now ename etime d params db =
        (Except.ok { db with events := db.events ++ rows },
         github.TxResult.committed rows)) ∧
    (github.ProcessWebhookRequest c fails now req target params db).2.1.events =
      db.events ++
        (((github.ProcessWebhookRequest c fails now req target params
          db).2.2).map github.TxResult.rows).flatten ∧
    ((github.ProcessWebhookRequest c fails now req target params db).2.2).length
      ≤ 2 := by
  refine ⟨?_, ?_⟩
  · rcases createEvents_cases cname fails now ename etime d params db with h | h
    · exact Or.inl h
    · exact Or.inr ⟨_, h⟩
  · unfold github.ProcessWebhookRequest
    dsimp only
    by_cases hv : github.validatePayload req.signatureHeader req.body
        (github.WebhookSecret c target) = true
    · rw [if_pos hv]
      cases req.jsonBody with
      | none => simp
      | some rawMsg =>
        dsimp only
        rcases createEvents_cases c.name fails now "raw" none
            (github.EventData.raw req.deliveryId req.eventType rawMsg) params db
          with h | h <;> rw [h]
        · simp [github.TxResult.rows]
        · dsimp only
          cases req.parsedEvent with
          | none => simp [github.TxResult.rows]
          | some pe =>
            cases pe with
            | push => simp [github.TxResult.rows]
            | other t => simp [github.TxResult.rows]
            | repository action org repo =>
              cases action with
              | none => simp [github.TxResult.rows]
              | some a =>
                dsimp only
                by_cases hc : (a == "created") = true
                · rw [if_pos hc]
                  obtain ⟨hev, hlen⟩ := repoCreatedHandler_tx c fails now org
                    repo params _
                  refine ⟨?_, ?_⟩
                  · dsimp only
                    rw [hev]
                    simp [github.TxResult.rows, List.append_assoc]
                  · dsimp only
                    simpa using Nat.succ_le_succ hlen
                · rw [if_neg hc]
                  by_cases hd : (a == "deleted") = true
                  · rw [if_pos hd]
                    obtain ⟨hev, hlen⟩ := repoDeletedHandler_tx c fails now org
                      repo params _
                    refine ⟨?_, ?_⟩
                    · dsimp only
                      rw [hev]
                      simp [github.TxResult.rows, List.append_assoc]
                    · dsimp only
                      simpa using Nat.succ_le_succ hlen
                  · rw [if_neg hd]
                    simp [github.TxResult.rows]
    · rw [if_neg hv]
      simp

/-- When the repository-created handler fails with an invalid-webhook-event
error (a bad payload shape), it leaves the store it was given untouched. -/
theorem repoCreatedHandler_invalid_keeps_db (c : github.Connector)
    (fails : github.EventRow → Bool) (now : Nat)
    (org : Option github.GithubOrganization)
    (repo : Option github.GithubRepository) (params : github.Parameters)
    (db1 : github.Db) (m : String)
    (h : (github.processWebhookEventRepositoryCreated c fails now org repo
      params db1).1 = some (github.ProcessError.invalidWebhookEvent m)) :
    (github.processWebhookEventRepositoryCreated c fails now org repo params
      db1).2.1 = db1 := by
  unfold github.processWebhookEventRepositoryCreated at h ⊢
  rcases org with _ | ⟨_ | login⟩
  · rfl
  · rfl
  · rcases repo with _ | ⟨_ | rname, cAt, uAt⟩
    · rfl
    · rfl
    · dsimp only at h ⊢
      rcases createEvents_cases c.name fails now "repository_creation" cAt
          (github.EventData.repositoryCreation login rname) params db1
        with h2 | h2 <;> (rw [h2] at h ⊢; all_goals simp at h)

/-- When the repository-deleted handler fails with an invalid-webhook-event
error (a bad payload shape), it leaves the store it was given untouched. -/
theorem repoDeletedHandler_invalid_keeps_db (c : github.Connector)
    (fails : github.EventRow → Bool) (now : Nat)
    (org : Option github.GithubOrganization)
    (repo : Option github.GithubRepository) (params : github.Parameters)
    (db1 : github.Db) (m : String)
    (h : (github.processWebhookEventRepositoryDeleted c fails now org repo
      params db1).1 = some (github.ProcessError.invalidWebhookEvent m)) :
    (github.processWebhookEventRepositoryDeleted c fails now org repo params
      db1).2.1 = db1 := by
  unfold github.processWebhookEventRepositoryDeleted at h ⊢
  rcases org with _ | ⟨_ | login⟩
  · rfl
  · rfl
  · rcases repo with _ | ⟨_ | rname, cAt, uAt⟩
    · rfl
    · rfl
    · dsimp only at h ⊢
      rcases createEvents_cases c.name fails now "repository_deletion" uAt
          (github.EventData.repositoryDeletion login rname) params db1
        with h2 | h2 <;> (rw [h2] at h ⊢; all_goals simp at h)

/-- C4 (amended) — when `ProcessWebhookRequest` fails because the signature
does not verify, or because the body is not valid JSON, no event row at all
is created; but when it fails with an invalid-webhook-event error (bad
payload shape: missing action, organization, organization login, repository
or repository name), the raw events have already been created and committed
in their own transaction, and only typed events are absent: the rows added
to the store are exactly raw-event rows. -/
theorem processWebhook_failure_effects (c : github.Connector)
    (fails : github.EventRow → Bool) (now : Nat) (req : github.WebhookRequest)
    (target : String) (params : github.Parameters) (db : github.Db)
    (m : String) :
    (github.validatePayload req.signatureHeader req.body
        (github.WebhookSecret c target) = false →
      github.ProcessWebhookRequest c fails now req target params db =
        (some github.ProcessError.invalidSignature, db, [])) ∧
    (req.jsonBody = none →
      github.validatePayload req.signatureHeader req.body
        (github.WebhookSecret c target) = true →
      github.ProcessWebhookRequest c fails now req target params db =
        (some github.ProcessError.cannotDecodePayload, db, [])) ∧
    ((github.ProcessWebhookRequest c fails now req target params db).1 =
        some (github.ProcessError.invalidWebhookEvent m) →
      ∃ rawRows : List github.EventRow,
        (github.ProcessWebhookRequest c fails now req target params
          db).2.1.events = db.events ++ rawRows ∧
        ∀ e ∈ rawRows, e.name = "raw") := by
  refine ⟨?_, ?_, ?_⟩
  · intro hv
    unfold github.ProcessWebhookRequest
    dsimp only
    rw [if_neg (by simp [hv])]
  · intro hjson hv
    unfold github.ProcessWebhookRequest
    dsimp only
    rw [if_pos hv, hjson]
  · intro herr
    by_cases hv : github.validatePayload req.signatureHeader req.body
        (github.WebhookSecret c target) = true
    · unfold github.ProcessWebhookRequest at herr ⊢
      dsimp only at herr ⊢
      rw [if_pos hv] at herr ⊢
      cases hjson : req.jsonBody with
      | none => rw [hjson] at herr; simp at herr
      | some rawMsg =>
        rw [hjson] at herr
        dsimp only at herr ⊢
        rcases createEvents_cases c.name fails now "raw" none
            (github.EventData.raw req.deliveryId req.eventType rawMsg) params db
          with h | h <;> rw [h] at herr ⊢
        · simp at herr
        · dsimp only at herr ⊢
          have hnames : ∀ e ∈ (github.LoadSubscriptionsByParams db "raw"
              params).map fun sub => sub.NewEvent c.name "raw" none
                (github.EventData.raw req.deliveryId req.eventType rawMsg) now,
              e.name = "raw" := fun e he => (mem_map_newEvent he).1
          cases hpe : req.parsedEvent with
          | none => rw [hpe] at herr; simp at herr
          | some pe =>
            rw [hpe] at herr
            cases pe with
            | push => simp at herr
            | other t => simp at herr
            | repository action org repo =>
              cases action with
              | none => exact ⟨_, rfl, hnames⟩
              | some a =>
                dsimp only at herr ⊢
                by_cases hc : (a == "created") = true
                · rw [if_pos hc] at herr ⊢
                  dsimp only at herr ⊢
                  rw [repoCreatedHandler_invalid_keeps_db c fails now org repo
                    params _ m herr]
                  exact ⟨_, rfl, hnames⟩
                · rw [if_neg hc] at herr ⊢
                  by_cases hd : (a == "deleted") = true
                  · rw [if_pos hd] at herr ⊢
                    dsimp only at herr ⊢
                    rw [repoDeletedHandler_invalid_keeps_db c fails now org
                      repo params _ m herr]
                    exact ⟨_, rfl, hnames⟩
                  · rw [if_neg hd] at herr
                    simp at herr
    · exfalso
      unfold github.ProcessWebhookRequest at herr
      dsimp only at herr
      rw [if_neg hv] at herr
      simp at herr

/-- C4 (amended) — witness: a wrongly signed request creates nothing; a
correctly signed request with an undecodable body creates nothing; and the
correctly signed request whose payload misses the organization fails with
"missing organization" while exactly its raw-event rows were persisted. -/
theorem processWebhook_failure_effects_witness :
    github.validatePayload github.reqBadSignature.signatureHeader
      github.reqBadSignature.body
      (github.WebhookSecret github.exConnector github.exTarget) = false ∧
    github.ProcessWebhookRequest github.exConnector github.noInsertFailures 0
      github.reqBadSignature github.exTarget github.exParams github.dbRawOnly =
      (some github.ProcessError.invalidSignature, github.dbRawOnly, []) ∧
    github.reqBadJson.jsonBody = none ∧
    github.ProcessWebhookRequest github.exConnector github.noInsertFailures 0
      github.reqBadJson github.exTarget github.exParams github.dbRawOnly =
      (some github.ProcessError.cannotDecodePayload, github.dbRawOnly, []) ∧
    (github.ProcessWebhookRequest github.exConnector github.noInsertFailures 0
      github.reqMissingOrg github.exTarget github.exParams
      github.dbRawOnly).1 =
      some (github.ProcessError.invalidWebhookEvent "missing organization") ∧
    (∃ rawRows : List github.EventRow,
      (github.ProcessWebhookRequest github.exConnector github.noInsertFailures
        0 github.reqMissingOrg github.exTarget github.exParams
        github.dbRawOnly).2.1.events = github.dbRawOnly.events ++ rawRows ∧
      ∀ e ∈ rawRows, e.name = "raw") := by
  have hbad : github.validatePayload github.reqBadSignature.signatureHeader
      github.reqBadSignature.body
      (github.WebhookSecret github.exConnector github.exTarget) = false := by
    decide
  have hvj := validate_signed_concrete github.reqBadJson rfl rfl
  have hmiss : (github.ProcessWebhookRequest github.exConnector
      github.noInsertFailures 0 github.reqMissingOrg github.exTarget
      github.exParams github.dbRawOnly).1 =
      some (github.ProcessError.invalidWebhookEvent "missing organization") := by
    have hv := validate_signed_concrete github.reqMissingOrg rfl rfl
    unfold github.ProcessWebhookRequest
    dsimp only
    rw [if_pos hv]
    decide
  exact ⟨hbad,
    (processWebhook_failure_effects github.exConnector github.noInsertFailures
      0 github.reqBadSignature github.exTarget github.exParams
      github.dbRawOnly "").1 hbad,
    rfl,
    (processWebhook_failure_effects github.exConnector github.noInsertFailures
      0 github.reqBadJson github.exTarget github.exParams
      github.dbRawOnly "").2.1 rfl hvj,
    hmiss,
    (processWebhook_failure_effects github.exConnector github.noInsertFailures
      0 github.reqMissingOrg github.exTarget github.exParams
      github.dbRawOnly "missing organization").2.2 hmiss⟩

/-- C4 — counterexample: the correctly signed request whose payload misses
the organization fails with the invalid-webhook-event error
"missing organization", yet one event row (the raw event) has been created
and committed, so an invalid-webhook failure does not imply that no event
row was created. -/
theorem processWebhook_shape_error_still_creates_raw :
    (github.ProcessWebhookRequest github.exConnector github.noInsertFailures 0
      github.reqMissingOrg github.exTarget github.exParams
      github.dbRawOnly).1 =
      some (github.ProcessError.invalidWebhookEvent "missing organization") ∧
    ((github.ProcessWebhookRequest github.exConnector github.noInsertFailures 0
      github.reqMissingOrg github.exTarget github.exParams
      github.dbRawOnly).2.1.events.map fun e => e.name) = ["raw"] := by
  have hv := validate_signed_concrete github.reqMissingOrg rfl rfl
  constructor
  · unfold github.ProcessWebhookRequest
    dsimp only
    rw [if_pos hv]
    decide
  · unfold github.ProcessWebhookRequest
    dsimp only
    rw [if_pos hv]
    decide

end Eventline

